import Mathlib

/-!
Shallow embedding of the music-theory engine of `src/index.tsx`
(chord_progression_learner).  JavaScript numbers are modelled as `Int`
(all arithmetic reachable from the claims is exact integer arithmetic),
strings as `String`, arrays as `List`, and the record objects as
structures.  The lookup tables keep the exact contents of the source.
-/

/-- Table `ALL_NOTES` from src/index.tsx line 908. -/
def ALL_NOTES : List String :=
  ["C", "C#", "D", "D#", "E", ("F" : String),
   "F#", "G", "G#", "A", "A#", "B"]

/-- JavaScript `Array.prototype.indexOf`: index of the first occurrence,
`-1` when absent. -/
def jsIndexOf (l : List String) (s : String) : Int :=
  match l.findIdx? (fun x => x == s) with
  | some i => (i : Int)
  | none => -1

/-- Indexing `ALL_NOTES[i]` (the source only indexes with `0 ≤ i < 12`). -/
def noteAt (i : Nat) : String := ALL_NOTES.getD i ""

/-- Transposition `ALL_NOTES[(r + k) % 12]`, the idiom used throughout the
source. -/
def noteTrans (r k : Int) : String := noteAt ((r + k) % 12).toNat

/-- Table `SCALE_PATTERNS` from src/index.tsx lines 910-920 (insertion order kept). -/
def SCALE_PATTERNS : List (String × List Int) :=
  [("Major", [0, 2, 4, 5, 7, 9, 11]),
   ("Natural Minor", [0, 2, 3, 5, 7, 8, 10]),
   ("Melodic Minor (Jazz)", [0, 2, 3, 5, 7, 9, 11]),
   ("Harmonic Minor", [0, 2, 3, 5, 7, 8, 11]),
   ("Dorian", [0, 2, 3, 5, 7, 9, 10]),
   ("Mixolydian", [0, 2, 4, 5, 7, 9, 10]),
   ("Locrian", [0, 1, 3, 5, 6, 8, 10]),
   ("Phrygian", [0, 1, 3, 5, 7, 8, 10]),
   ("Lydian", [0, 2, 4, 6, 7, 9, 11])]

/-- Lookup `SCALE_PATTERNS[name]` (JS object lookup). -/
def scalePattern (name : String) : Option (List Int) :=
  List.lookup name SCALE_PATTERNS

/-- Table `ROMAN_NUMERALS` from src/index.tsx line 928. -/
def ROMAN_NUMERALS : List String := ["i", "ii", "iii", "iv", "v", "vi", "vii"]

/-- A pair of barre-shape offset patterns (`eShape`/`aShape`),
src/index.tsx line 932. -/
structure ShapePair where
  eShape : List Int
  aShape : List Int
deriving Repr, DecidableEq

/-- Table `CHORD_SHAPES` from src/index.tsx lines 932-983. -/
def CHORD_SHAPES : List (String × ShapePair) :=
  [("", ⟨[0, 2, 2, 1, 0, 0], [-1, 0, 2, 2, 2, 0]⟩),
   ("m", ⟨[0, 2, 2, 0, 0, 0], [-1, 0, 2, 2, 1, 0]⟩),
   ("dim", ⟨[0, 1, 2, 0, -1, -1], [-1, 0, 1, 2, 1, -1]⟩),
   ("sus4", ⟨[0, 2, 2, 2, 0, 0], [-1, 0, 2, 2, 3, 0]⟩),
   ("sus2", ⟨[0, 2, 4, 4, 0, 0], [-1, 0, 2, 2, 0, 0]⟩),
   ("add9", ⟨[0, 2, 4, 1, 0, 0], [-1, 0, 2, 4, 2, 0]⟩),
   ("6", ⟨[0, 2, 2, 1, 2, 0], [-1, 0, 2, 2, 2, 2]⟩),
   ("maj7", ⟨[0, 2, 1, 1, 0, 0], [-1, 0, 2, 1, 2, 0]⟩),
   ("m7", ⟨[0, 2, 0, 0, 0, 0], [-1, 0, 2, 0, 1, 0]⟩),
   ("7", ⟨[0, 2, 0, 1, 0, 0], [-1, 0, 2, 0, 2, 0]⟩),
   ("7sus4", ⟨[0, 2, 0, 2, 0, 0], [-1, 0, 2, 0, 3, 0]⟩),
   ("m7b5", ⟨[0, -1, 0, 0, -1, -1], [-1, 0, 1, 0, 1, -1]⟩),
   ("dim7", ⟨[0, 1, 0, 0, -1, -1], [-1, 0, 1, 2, 1, -1]⟩)]

/-- Lookup `CHORD_SHAPES[key]` (JS object lookup). -/
def shapeLookup (key : String) : Option ShapePair :=
  List.lookup key CHORD_SHAPES

/-- Table `INVERSION_SHAPES` from src/index.tsx lines 986-1002. -/
def INVERSION_SHAPES : List (String × List Int) :=
  [("Maj_3_E", [0, -1, -2, 0, 1, -1]),
   ("Maj_3_A", [-1, 0, -2, -2, -2, 1]),
   ("Min_3_E", [0, -1, -1, 1, 2, -1]),
   ("Min_3_A", [-1, 0, -1, -1, -2, -1]),
   ("Maj_5_E", [0, 0, 2, 2, 2, 0])]

/-- Lookup `INVERSION_SHAPES[name]` (JS object lookup). -/
def inversionLookup (name : String) : Option (List Int) :=
  List.lookup name INVERSION_SHAPES

/-- The `Voicing` interface, src/index.tsx lines 1004-1008. -/
structure Voicing where
  name : String
  frets : List Int
  baseFret : Int
deriving Repr, DecidableEq

/-- The `Chord` interface, src/index.tsx lines 1010-1023. -/
structure Chord where
  id : String
  root : String
  quality : String
  name : String
  roman : String
  function : String
  notes : List String
  voicings : List Voicing
  activeVoicingIdx : Int
  scaleDegree : Int
  isDiatonic : Bool
  category : String
deriving Repr, DecidableEq

/-- Placeholder chord value (used only as the `getD` default of list reads
that the source guards against). -/
def defaultChord : Chord :=
  ⟨"", "", "", "", "", "", [], [], 0, 0, false, ""⟩

/-- One string of `GUITAR_TUNING`, src/index.tsx lines 1026-1033. -/
structure TuningString where
  note : String
  octave : Int
deriving Repr, DecidableEq

/-- Table `GUITAR_TUNING` from src/index.tsx lines 1026-1033. -/
def GUITAR_TUNING : List TuningString :=
  [⟨"E", 2⟩, ⟨"A", 2⟩, ⟨"D", 3⟩, ⟨"G", 3⟩, ⟨"B", 3⟩, ⟨"E", 4⟩]

/-- Function `getNoteAtFret` from src/index.tsx lines 1035-1043 (`null` becomes
`none`). -/
def getNoteAtFret (stringIdx : Nat) (fret : Int) : Option (String × Int) :=
  if fret == -1 then none
  else
    let openNote := GUITAR_TUNING.getD stringIdx ⟨"", 0⟩
    let openNoteIdx := jsIndexOf ALL_NOTES openNote.note
    let totalSemis := openNoteIdx + fret
    let noteName := noteAt (totalSemis % 12).toNat
    let octaveBoost := totalSemis / 12
    some (noteName, openNote.octave + octaveBoost)

/-- Function `createVoicingFromShape` from src/index.tsx lines 1046-1056. -/
def createVoicingFromShape (shape : List Int) (rootFret : Int) : List Int :=
  shape.map (fun f =>
    if f == -1 then -1
    else
      let finalFret := f + rootFret
      if finalFret > 12 && shape.getD 0 0 != -1 && shape.getD 0 0 + rootFret > 12 then
        finalFret - 12
      else finalFret)

/-- Function `createInversionVoicing` from src/index.tsx lines 1058-1066. -/
def createInversionVoicing (shape : List Int) (bassFret : Int) : Option (List Int) :=
  let frets := shape.map (fun f => if f == -1 then -1 else f + bassFret)
  if frets.any (fun f => f < 0 && f != -1) then none
  else some frets

/-- The triad fallback section of `getQualityFromIntervals`
(src/index.tsx lines 1077-1081), reached when no seventh is supplied or no
seventh row matched. -/
def getTriadQuality (third fifth : Int) : String :=
  if third == 4 && fifth == 7 then ""
  else if third == 3 && fifth == 7 then "m"
  else if third == 3 && fifth == 6 then "dim"
  else ""

/-- Function `getQualityFromIntervals` from src/index.tsx lines 1068-1082. -/
def getQualityFromIntervals (third fifth : Int) (seventh : Option Int) : String :=
  match seventh with
  | some s =>
    if third == 4 && fifth == 7 && s == 11 then "maj7"
    else if third == 4 && fifth == 7 && s == 10 then "7"
    else if third == 3 && fifth == 7 && s == 10 then "m7"
    else if third == 3 && fifth == 7 && s == 11 then "mMaj7"
    else if third == 3 && fifth == 6 && s == 10 then "m7b5"
    else if third == 3 && fifth == 6 && s == 9 then "dim7"
    else getTriadQuality third fifth
  | none => getTriadQuality third fifth

/-- Expression `Math.min(...fs.filter(fr => fr !== -1)) || 1` (src/index.tsx
lines 1160, 1171, 1187, ...): `|| 1` replaces a falsy `0` by `1`; the
filtered list is never empty for the shapes in the tables, so the `none`
default is unreachable. -/
def minNonMutedOr1 (fs : List Int) : Int :=
  match (fs.filter (fun f => f != -1)).min? with
  | some m => if m == 0 then 1 else m
  | none => 1

/-- Expression `Math.min(...wFrets.filter(f => f !== -1))` (src/index.tsx line 1279,
no `|| 1` here); the filtered list is never empty for the shapes in the
table, so the `none` default is unreachable. -/
def minNonMuted (fs : List Int) : Int :=
  ((fs.filter (fun f => f != -1)).min?).getD 1

/-- JavaScript `String.prototype.startsWith`, modelled on the character
data so that it evaluates inside the kernel. -/
def jsStartsWith (s pre : String) : Bool :=
  pre.data.isPrefixOf s.data

/-- JavaScript `String.prototype.includes` with a single-character
pattern, modelled on the character data so that it evaluates inside the
kernel. -/
def jsContainsChar (s : String) (c : Char) : Bool :=
  s.data.contains c

/-- JavaScript `String.prototype.toUpperCase`, modelled on the character data so
that it evaluates inside the kernel. -/
def jsToUpper (s : String) : String :=
  ⟨s.data.map Char.toUpper⟩

/-- Replace the first occurrence of `pat` in a character list. -/
def replaceFirstChars (pat rep : List Char) : List Char → List Char
  | [] => []
  | c :: rest =>
    if pat.isPrefixOf (c :: rest) then rep ++ (c :: rest).drop pat.length
    else c :: replaceFirstChars pat rep rest

/-- JavaScript `String.prototype.replace` with a plain-string pattern:
replaces the first occurrence only. -/
def jsReplace (s pat rep : String) : String :=
  ⟨replaceFirstChars pat.data rep.data s.data⟩

/-- The shape-key fallback chain of `buildChord`, src/index.tsx
lines 1143-1149. -/
def resolveShapeKey (q : String) : String :=
  if (shapeLookup q).isSome then q
  else if q == "mMaj7" then "m7"
  else if jsStartsWith q "m" then "m"
  else if jsStartsWith q "dim" then "dim"
  else ""

/-- The voicing list assembled by `buildChord`, src/index.tsx
lines 1142-1216 (E-shape, A-shape, then the conditional inversions).
`thirdNote`/`fifthNote` are the values captured by the closure. -/
def mkVoicings (q n thirdNote fifthNote : String) : List Voicing :=
  let shapeTemplate := (shapeLookup (resolveShapeKey q)).getD ((shapeLookup "").getD ⟨[], []⟩)
  let eStringIdx := jsIndexOf ALL_NOTES "E"
  let eShapeRootFret := (jsIndexOf ALL_NOTES n - eStringIdx + 12) % 12
  let eFrets := createVoicingFromShape shapeTemplate.eShape eShapeRootFret
  let isEBarre := eFrets.any (fun fr => fr > 0) && eShapeRootFret > 0
  let eLabel := if eShapeRootFret == 0 then (12 : Int) else eShapeRootFret
  let eV : Voicing :=
    ⟨if !isEBarre then "Open / Bottom" else s!"Root on E (Fret {eLabel})",
     eFrets, minNonMutedOr1 eFrets⟩
  let aStringIdx := jsIndexOf ALL_NOTES "A"
  let aShapeRootFret := (jsIndexOf ALL_NOTES n - aStringIdx + 12) % 12
  let aFrets := createVoicingFromShape shapeTemplate.aShape aShapeRootFret
  let isABarre := aFrets.any (fun fr => fr > 0) && aShapeRootFret > 0
  let aLabel := if aShapeRootFret == 0 then (12 : Int) else aShapeRootFret
  let aV : Voicing :=
    ⟨if !isABarre then "Open A-Style" else s!"Root on A (Fret {aLabel})",
     aFrets, minNonMutedOr1 aFrets⟩
  let inversions :=
    if q == "" || q == "m" then
      let isMinor := q == "m"
      let thirdEFret := (jsIndexOf ALL_NOTES thirdNote - eStringIdx + 12) % 12
      let shapeNameE := if isMinor then "Min_3_E" else "Maj_3_E"
      let invE :=
        match createInversionVoicing ((inversionLookup shapeNameE).getD []) thirdEFret with
        | some fr => [(⟨s!"/{thirdNote} (Bass on E)", fr, minNonMutedOr1 fr⟩ : Voicing)]
        | none => []
      let thirdAFret := (jsIndexOf ALL_NOTES thirdNote - aStringIdx + 12) % 12
      let shapeNameA := if isMinor then "Min_3_A" else "Maj_3_A"
      let invA :=
        match createInversionVoicing ((inversionLookup shapeNameA).getD []) thirdAFret with
        | some fr => [(⟨s!"/{thirdNote} (Bass on A)", fr, minNonMutedOr1 fr⟩ : Voicing)]
        | none => []
      invE ++ invA
    else []
  let secondInversion :=
    if q == "" then
      let fifthEFret := (jsIndexOf ALL_NOTES fifthNote - eStringIdx + 12) % 12
      match createInversionVoicing ((inversionLookup "Maj_5_E").getD []) fifthEFret with
      | some fr => [(⟨s!"/{fifthNote} (Bass on E)", fr, minNonMutedOr1 fr⟩ : Voicing)]
      | none => []
    else []
  eV :: aV :: (inversions ++ secondInversion)

/-- Function `buildChord` from src/index.tsx lines 1141-1235; `thirdNote`,
`fifthNote` and `i` are the closure captures, the remaining parameters
match the source's `(q, n, r, f, cat, customId)`. -/
def buildChord (thirdNote fifthNote : String) (i : Nat)
    (q n r f cat customId : String) : Chord :=
  { id := s!"{n}{q}-{i}-{customId}"
    root := n
    quality := q
    name := s!"{n}{q}"
    roman := r
    function := f
    notes := [n, thirdNote, fifthNote]
    voicings := mkVoicings q n thirdNote fifthNote
    activeVoicingIdx := 0
    scaleDegree := (i : Int) + 1
    isDiatonic := true
    category := cat }

/-- The per-degree context computed by the body of the
`scaleNotes.forEach((note, i) => ...)` loop, src/index.tsx
lines 1093-1139. -/
structure DegreeCtx where
  note : String
  thirdNote : String
  fifthNote : String
  seventhNote : String
  quality : String
  roman : String
  func : String
deriving Repr, DecidableEq

/-- src/index.tsx lines 1093-1139: third/fifth/seventh candidates, the
Blues override on degrees 1/4/5, the quality classification, the harmonic
function table and the Roman numeral. -/
def degreeCtx (scaleNotes : List String) (scaleType style : String) (i : Nat) : DegreeCtx :=
  let note := scaleNotes.getD i ""
  let chordRootVal := jsIndexOf ALL_NOTES note
  let thirdNote0 := scaleNotes.getD ((i + 2) % 7) ""
  let fifthNote := scaleNotes.getD ((i + 4) % 7) ""
  let seventhNote0 := scaleNotes.getD ((i + 6) % 7) ""
  let isBluesDominant := style == "Blues" && (i == 0 || i == 3 || i == 4)
  let thirdNote := if isBluesDominant then noteTrans chordRootVal 4 else thirdNote0
  let seventhNote := if isBluesDominant then noteTrans chordRootVal 10 else seventhNote0
  let useSevenths := (style == "Jazz" || style == "Blues") || isBluesDominant
  let thirdVal := jsIndexOf ALL_NOTES thirdNote
  let fifthVal := jsIndexOf ALL_NOTES fifthNote
  let seventhVal := jsIndexOf ALL_NOTES seventhNote
  let thirdInterval := (thirdVal - chordRootVal + 12) % 12
  let fifthInterval := (fifthVal - chordRootVal + 12) % 12
  let seventhInterval := (seventhVal - chordRootVal + 12) % 12
  let quality := getQualityFromIntervals thirdInterval fifthInterval
    (if useSevenths then some seventhInterval else none)
  let f0 := "Adventure"
  let f1 := if i == 0 then "Home" else f0
  let f2 := if i == 4 then "Tension" else f1
  let f3 := if i == 6 then "Tension" else f2
  let f4 := if i == 2 || i == 5 then "Home" else f3
  let f5 := if i == 1 || i == 3 then "Adventure" else f4
  let func :=
    if style == "Blues" || scaleType == "Mixolydian" then
      if i == 0 then "Home" else if i == 3 then "Adventure" else if i == 4 then "Tension" else f5
    else f5
  let roman0 := ROMAN_NUMERALS.getD i ""
  let roman1 := if thirdInterval == 4 then jsToUpper roman0 else roman0
  let roman2 := if jsContainsChar quality '7' then roman1 ++ "7" else roman1
  let roman3 := if quality == "maj7" then jsReplace roman2 "7" "Maj7" else roman2
  let roman4 := if quality == "m7b5" then roman3 ++ "ø" else roman3
  let roman := if quality == "dim7" then roman4 ++ "°7" else roman4
  ⟨note, thirdNote, fifthNote, seventhNote, quality, roman, func⟩

/-- The diatonic "Team" chord pushed for degree `i`
(src/index.tsx line 1237). -/
def teamChordAt (scaleNotes : List String) (scaleType style : String) (i : Nat) : Chord :=
  let ctx := degreeCtx scaleNotes scaleType style i
  buildChord ctx.thirdNote ctx.fifthNote i ctx.quality ctx.note ctx.roman ctx.func "Team" ""

/-- The "Variation" chords pushed for degree `i`, in source push order
(src/index.tsx lines 1239-1256). -/
def variationsAt (scaleNotes : List String) (scaleType style : String) (i : Nat) : List Chord :=
  let ctx := degreeCtx scaleNotes scaleType style i
  (if ctx.quality == "" || ctx.quality == "7" then
    [buildChord ctx.thirdNote ctx.fifthNote i "sus4" ctx.note (ctx.roman ++ "sus4") "Spice" "Variation" "sus4",
     buildChord ctx.thirdNote ctx.fifthNote i "sus2" ctx.note (ctx.roman ++ "sus2") "Spice" "Variation" "sus2"]
    ++ (if style == "Pop" then
         [buildChord ctx.thirdNote ctx.fifthNote i "add9" ctx.note (ctx.roman ++ "add9") "Spice" "Variation" "add9"]
       else [])
    ++ (if ctx.quality == "" then
         [buildChord ctx.thirdNote ctx.fifthNote i "6" ctx.note (ctx.roman ++ "6") "Spice" "Variation" "6"]
       else [])
  else [])
  ++ (if ctx.quality == "7" then
       [buildChord ctx.thirdNote ctx.fifthNote i "7sus4" ctx.note (ctx.roman ++ "7sus") "Tension" "Variation" "7sus4"]
     else [])

/-- All chords pushed by one iteration of the `forEach` loop. -/
def degreeChords (scaleNotes : List String) (scaleType style : String) (i : Nat) : List Chord :=
  teamChordAt scaleNotes scaleType style i :: variationsAt scaleNotes scaleType style i

/-- Function `addWildcard` from src/index.tsx lines 1260-1285. -/
def addWildcard (rootIdx degreeOffset : Int) (quality roman label : String) : Chord :=
  let wIdx := (rootIdx + degreeOffset) % 12
  let wNote := noteAt wIdx.toNat
  let template := (shapeLookup quality).getD ((shapeLookup "").getD ⟨[], []⟩)
  let eStringIdx := jsIndexOf ALL_NOTES "E"
  let wRootFret := (wIdx - eStringIdx + 12) % 12
  let wFrets := createVoicingFromShape template.eShape wRootFret
  { id := s!"wild-{wNote}{quality}"
    root := wNote
    quality := quality
    name := s!"{wNote}{quality}"
    roman := roman
    function := "Stranger"
    notes := [wNote, "?", "?"]
    voicings := [⟨label, wFrets, minNonMuted wFrets⟩]
    activeVoicingIdx := 0
    scaleDegree := 0
    isDiatonic := false
    category := "Wildcard" }

/-- The wildcard block of `generateKeyChords`, src/index.tsx
lines 1287-1296. -/
def wildcardChords (rootIdx : Int) (scaleType : String) : List Chord :=
  if scaleType == "Major" || scaleType == "Mixolydian" then
    [addWildcard rootIdx 10 "" "bVII" "Mixolydian Borrow",
     addWildcard rootIdx 3 "" "bIII" "Chromatic Mediant",
     addWildcard rootIdx 5 "m" "iv" "Minor Plagal",
     addWildcard rootIdx 8 "" "bVI" "Epic Lift"]
  else
    [addWildcard rootIdx 7 "" "V" "Major V (Harmonic)",
     addWildcard rootIdx 5 "" "IV" "Dorian IV",
     addWildcard rootIdx 1 "" "bII" "Neapolitan"]

/-- Expression `pattern.map(interval => ALL_NOTES[(rootIdx + interval) % 12])`
(src/index.tsx line 1088 and lines 1515-1518). -/
def scaleNotesOf (root : String) (pattern : List Int) : List String :=
  pattern.map (fun itv => noteTrans (jsIndexOf ALL_NOTES root) itv)

/-- The body of `generateKeyChords` after the scale-pattern lookup
succeeded (src/index.tsx lines 1085-1298): the `forEach` over
`scaleNotes` followed by the wildcard block. -/
def generateKeyChordsFor (root scaleType : String) (pattern : List Int) (style : String) : List Chord :=
  let rootIdx := jsIndexOf ALL_NOTES root
  let scaleNotes := scaleNotesOf root pattern
  ((List.range scaleNotes.length).flatMap (fun i => degreeChords scaleNotes scaleType style i))
  ++ wildcardChords rootIdx scaleType

/-- Function `generateKeyChords` (src/index.tsx lines 1085-1299): an unregistered
`scaleType` makes `SCALE_PATTERNS[scaleType]` `undefined` and the
subsequent `pattern.map` throw before any chord is built; the thrown
failure is modelled as the `UnknownScale` error value of an `Except`. -/
def generateKeyChords (root scaleType style : String) : Except String (List Chord) :=
  match scalePattern scaleType with
  | none => .error "UnknownScale"
  | some pattern => .ok (generateKeyChordsFor root scaleType pattern style)

/-- The scale-construction step alone (the spec's `buildScale`),
src/index.tsx lines 1086-1088, with the same failure model. -/
def buildScale (root scaleType : String) : Except String (List String) :=
  match scalePattern scaleType with
  | none => .error "UnknownScale"
  | some pattern => .ok (scaleNotesOf root pattern)

/-- Decoding check used by the voicing invariant claims: every non-muted
fret of `frets`, decoded through `getNoteAtFret` (string index taken from
the position in the list, as in `playSound`), yields a pitch class listed
in `notes`. -/
def fretsDecodeInto (frets : List Int) (notes : List String) : Bool :=
  (frets.enum).all (fun p =>
    match getNoteAtFret p.1 p.2 with
    | none => true
    | some nm => notes.contains nm.1)

/-- A chord's every voicing decodes into its own `notes` field. -/
def decodesIntoNotes (c : Chord) : Bool :=
  c.voicings.all (fun v => fretsDecodeInto v.frets c.notes)

/-- The chord's quality is a triad tag and its `notes` field holds exactly
the root plus the tag's third and fifth (4/7 for major, 3/7 for minor,
3/6 for diminished). -/
def triadConsistent (c : Chord) : Bool :=
  let r := jsIndexOf ALL_NOTES c.root
  (c.quality == "" && c.notes == [c.root, noteTrans r 4, noteTrans r 7])
  || (c.quality == "m" && c.notes == [c.root, noteTrans r 3, noteTrans r 7])
  || (c.quality == "dim" && c.notes == [c.root, noteTrans r 3, noteTrans r 6])

/-- Function `changeVoicing` from src/index.tsx lines 1544-1558, with the
JavaScript object graph made explicit: `heap` is the store of `Chord`
objects, `progression` holds references (store indices) as the React
state array does, and `selectedId` is `selectedChord.id`.  The source
copies the array (`[...progression]`) but then assigns
`newProg[idx].activeVoicingIdx = newVoicingIdx`, which writes through the
shared reference: the store cell is updated (`heap.set`) and the
reference list is returned unchanged. -/
def changeVoicing (heap : List Chord) (progression : List Nat)
    (selectedId : String) (delta : Int) : List Chord × List Nat :=
  match progression.findIdx? (fun r => (heap.getD r defaultChord).id == selectedId) with
  | none => (heap, progression)
  | some idx =>
    let r := progression.getD idx 0
    let c := heap.getD r defaultChord
    let len : Int := c.voicings.length
    let newVoicingIdx := (c.activeVoicingIdx + delta + len) % len
    (heap.set r { c with activeVoicingIdx := newVoicingIdx }, progression)


/-- A chord as `changeVoicing` rewrites it: same data, `activeVoicingIdx`
moved by `delta` modulo the voicing count. -/
def updatedChord (c : Chord) (delta : Int) : Chord :=
  { c with activeVoicingIdx :=
      (c.activeVoicingIdx + delta + (c.voicings.length : Int)) % (c.voicings.length : Int) }

/-- A small concrete chord used to exercise `changeVoicing`. -/
def sampleChord : Chord :=
  { id := "c1", root := "C", quality := "", name := "C", roman := "I",
    function := "Home", notes := ["C", "E", "G"],
    voicings := [⟨"v0", [0, 0, 0, 0, 0, 0], 1⟩, ⟨"v1", [1, 1, 1, 1, 1, 1], 1⟩],
    activeVoicingIdx := 0, scaleDegree := 1, isDiatonic := true, category := "Team" }

/-- The per-chord facts checked for the Blues-override claim: the stored
third is the forced major third above the chord root, the toneSet has 3
entries, and the quality is the dominant-7 tag exactly when the
scale-supplied fifth sits 7 semitones above the root. -/
def bluesTeamCheck (c : Chord) : Bool :=
  let r := jsIndexOf ALL_NOTES c.root
  let fifthInterval := (jsIndexOf ALL_NOTES (c.notes.getD 2 "") - r + 12) % 12
  (c.notes.getD 1 "" == noteTrans r 4) &&
  (c.notes.length == 3) &&
  ((c.quality == "7") == (fifthInterval == 7))

deriving instance DecidableEq for Except

/-!  Theorems.  -/

set_option maxRecDepth 100000
set_option maxHeartbeats 1000000

/-- C2 counterexample: the interval pair (1,2) lies outside the decision
table, yet the classifier returns for it the very same tag `""` that it
returns for the major triad (4,7) — there is no distinguished
"unresolved" tag distinct from major. -/
theorem C2_quality_table_counterexample :
    getQualityFromIntervals 1 2 none = getQualityFromIntervals 4 7 none ∧
    getQualityFromIntervals 4 7 none = "" := by decide

/-- C2 (amended): the classifier realises exactly the listed decision
table; with a seventh present but no seventh row matching, it falls
through to the triad rows on (third, fifth); and every combination
outside the triad rows returns `""`, which is the same tag as major, not
a distinguished "unresolved" tag. -/
theorem C2_quality_table :
    (getQualityFromIntervals 4 7 (some 11) = "maj7") ∧
    (getQualityFromIntervals 4 7 (some 10) = "7") ∧
    (getQualityFromIntervals 3 7 (some 10) = "m7") ∧
    (getQualityFromIntervals 3 7 (some 11) = "mMaj7") ∧
    (getQualityFromIntervals 3 6 (some 10) = "m7b5") ∧
    (getQualityFromIntervals 3 6 (some 9) = "dim7") ∧
    (∀ t f : Int, getQualityFromIntervals t f none = getTriadQuality t f) ∧
    (getTriadQuality 4 7 = "" ∧ getTriadQuality 3 7 = "m" ∧ getTriadQuality 3 6 = "dim") ∧
    (∀ t f s : Int,
      ¬(t = 4 ∧ f = 7 ∧ s = 11) → ¬(t = 4 ∧ f = 7 ∧ s = 10) →
      ¬(t = 3 ∧ f = 7 ∧ s = 10) → ¬(t = 3 ∧ f = 7 ∧ s = 11) →
      ¬(t = 3 ∧ f = 6 ∧ s = 10) → ¬(t = 3 ∧ f = 6 ∧ s = 9) →
      getQualityFromIntervals t f (some s) = getTriadQuality t f) ∧
    (∀ t f : Int, ¬(t = 4 ∧ f = 7) → ¬(t = 3 ∧ f = 7) → ¬(t = 3 ∧ f = 6) →
      getTriadQuality t f = "") := by
  refine ⟨by decide, by decide, by decide, by decide, by decide, by decide,
    fun t f => rfl, ⟨by decide, by decide, by decide⟩, ?_, ?_⟩
  · intro t f s h1 h2 h3 h4 h5 h6
    simp only [getQualityFromIntervals]
    split_ifs with g1 g2 g3 g4 g5 g6
    · simp only [Bool.and_eq_true, beq_iff_eq] at g1; exact absurd ⟨g1.1.1, g1.1.2, g1.2⟩ h1
    · simp only [Bool.and_eq_true, beq_iff_eq] at g2; exact absurd ⟨g2.1.1, g2.1.2, g2.2⟩ h2
    · simp only [Bool.and_eq_true, beq_iff_eq] at g3; exact absurd ⟨g3.1.1, g3.1.2, g3.2⟩ h3
    · simp only [Bool.and_eq_true, beq_iff_eq] at g4; exact absurd ⟨g4.1.1, g4.1.2, g4.2⟩ h4
    · simp only [Bool.and_eq_true, beq_iff_eq] at g5; exact absurd ⟨g5.1.1, g5.1.2, g5.2⟩ h5
    · simp only [Bool.and_eq_true, beq_iff_eq] at g6; exact absurd ⟨g6.1.1, g6.1.2, g6.2⟩ h6
    · rfl
  · intro t f h1 h2 h3
    simp only [getTriadQuality]
    split_ifs with g1 g2 g3
    · simp only [Bool.and_eq_true, beq_iff_eq] at g1; exact absurd g1 h1
    · simp only [Bool.and_eq_true, beq_iff_eq] at g2; exact absurd g2 h2
    · simp only [Bool.and_eq_true, beq_iff_eq] at g3; exact absurd g3 h3
    · rfl

/-- Witness for C2_quality_table at the concrete out-of-table input
(2, 6, 5). -/
theorem C2_quality_table_witness :
    getQualityFromIntervals 2 6 (some 5) = "" := by
  have h := C2_quality_table
  have h1 := h.2.2.2.2.2.2.2.2.1 2 6 5 (by decide) (by decide) (by decide)
    (by decide) (by decide) (by decide)
  have h2 := h.2.2.2.2.2.2.2.2.2 2 6 (by decide) (by decide) (by decide)
  exact h1.trans h2

/-- C8: for each of the 12 roots and each of the 9 registered patterns,
the scale construction succeeds and yields 7 distinct pitch classes of
the chromatic alphabet, obtained by transposing the root through the
pattern's strictly increasing intervals in [0, 11]. -/
theorem C8_build_scale :
    ∀ root ∈ ALL_NOTES, ∀ pr ∈ SCALE_PATTERNS,
      buildScale root pr.1 = Except.ok (scaleNotesOf root pr.2) ∧
      (scaleNotesOf root pr.2).length = 7 ∧
      (scaleNotesOf root pr.2).Nodup ∧
      (∀ s ∈ scaleNotesOf root pr.2, s ∈ ALL_NOTES) ∧
      pr.2.length = 7 ∧ pr.2.Pairwise (fun a b => a + 1 ≤ b) ∧
      (∀ itv ∈ pr.2, 0 ≤ itv ∧ itv ≤ 11) := by decide

/-- Witness for C8_build_scale at root C and the Major pattern. -/
theorem C8_build_scale_witness :
    buildScale "C" "Major" = Except.ok ["C", "D", "E", "F", "G", "A", "B"] := by
  have h := (C8_build_scale "C" (by decide) ("Major", [0, 2, 4, 5, 7, 9, 11]) (by decide)).1
  exact h.trans (by decide)

/-- C9: an unregistered pattern name makes both `buildScale` and
`generateKeyChords` fail with the `UnknownScale` error (the embedding's
model of the exception thrown when `SCALE_PATTERNS[name]` is
`undefined`), with no partial catalog; every registered name
succeeds. -/
theorem C9_unknown_scale :
    (∀ root scaleType style : String, scalePattern scaleType = none →
      generateKeyChords root scaleType style = Except.error "UnknownScale" ∧
      buildScale root scaleType = Except.error "UnknownScale") ∧
    (∀ (root scaleType style : String) (p : List Int), scalePattern scaleType = some p →
      generateKeyChords root scaleType style =
        Except.ok (generateKeyChordsFor root scaleType p style) ∧
      buildScale root scaleType = Except.ok (scaleNotesOf root p)) ∧
    (∀ pr ∈ SCALE_PATTERNS, scalePattern pr.1 = some pr.2) := by
  refine ⟨?_, ?_, by decide⟩
  · intro root st sty h
    constructor
    · show (match scalePattern st with
        | none => Except.error "UnknownScale"
        | some pattern => Except.ok (generateKeyChordsFor root st pattern sty)) = _
      rw [h]
    · show (match scalePattern st with
        | none => Except.error "UnknownScale"
        | some pattern => Except.ok (scaleNotesOf root pattern)) = _
      rw [h]
  · intro root st sty p h
    constructor
    · show (match scalePattern st with
        | none => Except.error "UnknownScale"
        | some pattern => Except.ok (generateKeyChordsFor root st pattern sty)) = _
      rw [h]
    · show (match scalePattern st with
        | none => Except.error "UnknownScale"
        | some pattern => Except.ok (scaleNotesOf root pattern)) = _
      rw [h]

/-- Witness for C9_unknown_scale: the unregistered name "Klingon" fails,
the registered name "Major" succeeds. -/
theorem C9_unknown_scale_witness :
    generateKeyChords "C" "Klingon" "Pop" = Except.error "UnknownScale" ∧
    buildScale "C" "Major" =
      Except.ok (scaleNotesOf "C" [0, 2, 4, 5, 7, 9, 11]) := by
  have h1 := (C9_unknown_scale.1 "C" "Klingon" "Pop" (by decide)).1
  have h2 := (C9_unknown_scale.2.1 "C" "Major" "Pop" [0, 2, 4, 5, 7, 9, 11] (by decide)).2
  exact ⟨h1, h2⟩

/-- C10: for every registered shape template and every root fret in
0..11, shape shifting is pure addition (the fold-down-by-12 branch is
never taken, because every E-shape starts with offset 0 and every
A-shape starts with -1), and every resulting fret is at most 15. -/
theorem C10_shape_shift :
    ∀ p ∈ CHORD_SHAPES, ∀ t : Fin 12,
      (createVoicingFromShape p.2.eShape (t.val : Int) =
        p.2.eShape.map (fun f => if f == -1 then -1 else f + (t.val : Int))) ∧
      (createVoicingFromShape p.2.aShape (t.val : Int) =
        p.2.aShape.map (fun f => if f == -1 then -1 else f + (t.val : Int))) ∧
      (∀ f ∈ createVoicingFromShape p.2.eShape (t.val : Int), f ≤ 15) ∧
      (∀ f ∈ createVoicingFromShape p.2.aShape (t.val : Int), f ≤ 15) ∧
      p.2.eShape.getD 0 0 = 0 ∧ p.2.aShape.getD 0 0 = -1 := by decide

/-- Witness for C10_shape_shift: the major E-shape shifted to fret 3. -/
theorem C10_shape_shift_witness :
    createVoicingFromShape [0, 2, 2, 1, 0, 0] (3 : Int) = [3, 5, 5, 4, 3, 3] := by
  have h := (C10_shape_shift ("", ⟨[0, 2, 2, 1, 0, 0], [-1, 0, 2, 2, 2, 0]⟩)
    (by decide) (3 : Fin 12)).1
  exact h.trans (by decide)


/-- C5 counterexample: after `changeVoicing`, the store cell holding the
selected chord — the very object prior references point at — carries the
new `activeVoicingIdx`; no fresh chord value is produced (the returned
reference list is the old one) and the input object graph is not
preserved. -/
theorem C5_change_voicing_counterexample :
    (changeVoicing [sampleChord] [0] "c1" 1).2 = [0] ∧
    ((changeVoicing [sampleChord] [0] "c1" 1).1.getD 0 defaultChord).activeVoicingIdx = 1 ∧
    sampleChord.activeVoicingIdx = 0 ∧
    (changeVoicing [sampleChord] [0] "c1" 1).1 ≠ [sampleChord] := by decide

/-- Reading `List.getD` after `List.set` at a different index is unchanged. -/
theorem getD_set_ne (l : List Chord) (i j : Nat) (x : Chord) (h : i ≠ j) :
    (l.set i x).getD j defaultChord = l.getD j defaultChord := by
  simp only [List.getD_eq_getElem?_getD]
  rw [List.getElem?_set_ne h]

/-- C5 (amended): `changeVoicing` copies the progression array but
mutates the selected chord object in place: the returned reference list
is the input one, the selected chord's store cell is overwritten with the
shifted `activeVoicingIdx`, and every other store cell is unchanged. -/
theorem C5_change_voicing :
    ∀ (heap : List Chord) (progression : List Nat) (selectedId : String)
      (delta : Int) (idx : Nat),
      progression.findIdx? (fun r => (heap.getD r defaultChord).id == selectedId) = some idx →
      (changeVoicing heap progression selectedId delta).2 = progression ∧
      (changeVoicing heap progression selectedId delta).1 =
        heap.set (progression.getD idx 0)
          (updatedChord (heap.getD (progression.getD idx 0) defaultChord) delta) ∧
      (∀ r2 : Nat, r2 ≠ progression.getD idx 0 →
        (changeVoicing heap progression selectedId delta).1.getD r2 defaultChord =
          heap.getD r2 defaultChord) := by
  intro heap progression selectedId delta idx h
  have hcv : changeVoicing heap progression selectedId delta =
      (heap.set (progression.getD idx 0)
        (updatedChord (heap.getD (progression.getD idx 0) defaultChord) delta),
       progression) := by
    unfold changeVoicing
    rw [h]
    rfl
  refine ⟨by rw [hcv], by rw [hcv], ?_⟩
  intro r2 hr2
  rw [hcv]
  exact getD_set_ne heap _ r2 _ (Ne.symm hr2)

/-- Witness for C5_change_voicing on a two-chord store selecting the
first chord. -/
theorem C5_change_voicing_witness :
    (changeVoicing [sampleChord, defaultChord] [0, 1] "c1" 1).2 = [0, 1] ∧
    (changeVoicing [sampleChord, defaultChord] [0, 1] "c1" 1).1.getD 1 defaultChord
      = defaultChord := by
  have h := C5_change_voicing [sampleChord, defaultChord] [0, 1] "c1" 1 0 (by decide)
  exact ⟨h.1, h.2.2 1 (by decide)⟩

/-- C6 counterexample: the quality tag `mMaj7` has no exact shape
template, and the source's fallback picks the `m7` template — a seventh
shape, not the bare minor triad the claimed chain (exact quality, then
bare triad family, then major) would select; the resulting voicings
differ observably from the minor-triad ones. -/
theorem C6_voicing_total_counterexample :
    shapeLookup "mMaj7" = none ∧
    resolveShapeKey "mMaj7" = "m7" ∧
    resolveShapeKey "mMaj7" ≠ "m" ∧
    mkVoicings "mMaj7" "C" "D#" "G" ≠ mkVoicings "m" "C" "D#" "G" := by decide

/-- C6 (amended): voicing synthesis is total and never returns an empty
voicing list, for every root and every quality string; the fallback
chain is: exact quality, then the special case m(maj7) → the m7
template, then bare minor/diminished by quality prefix, then major as
last resort, and it always lands on a defined template. -/
theorem C6_voicing_total :
    (∀ (thirdNote fifthNote : String) (i : Nat) (q n r f cat customId : String),
      (buildChord thirdNote fifthNote i q n r f cat customId).voicings ≠ []) ∧
    (∀ (rootIdx degreeOffset : Int) (q rm lb : String),
      (addWildcard rootIdx degreeOffset q rm lb).voicings ≠ []) ∧
    (∀ q : String, (shapeLookup (resolveShapeKey q)).isSome = true) ∧
    (∀ q : String, (shapeLookup q).isSome = true → resolveShapeKey q = q) ∧
    (resolveShapeKey "mMaj7" = "m7") ∧
    (∀ q : String, shapeLookup q = none → q ≠ "mMaj7" → jsStartsWith q "m" = true →
      resolveShapeKey q = "m") ∧
    (∀ q : String, shapeLookup q = none → q ≠ "mMaj7" → ¬(jsStartsWith q "m" = true) →
      jsStartsWith q "dim" = true → resolveShapeKey q = "dim") ∧
    (∀ q : String, shapeLookup q = none → q ≠ "mMaj7" → ¬(jsStartsWith q "m" = true) →
      ¬(jsStartsWith q "dim" = true) → resolveShapeKey q = "") := by
  refine ⟨?_, ?_, ?_, ?_, by decide, ?_, ?_, ?_⟩
  · intro thirdNote fifthNote i q n r f cat customId
    simp [buildChord, mkVoicings]
  · intro rootIdx degreeOffset q rm lb
    simp [addWildcard]
  · intro q
    unfold resolveShapeKey
    split_ifs with h1 h2 h3 h4
    · exact h1
    · decide
    · decide
    · decide
    · decide
  · intro q h
    simp [resolveShapeKey, h]
  · intro q h hne hm
    have hs : (shapeLookup q).isSome = false := by rw [h]; rfl
    have hq : (q == "mMaj7") = false := by
      cases hb : q == "mMaj7"
      · rfl
      · exact absurd (by simpa using hb) hne
    simp [resolveShapeKey, hs, hq, hm]
  · intro q h hne hm hd
    have hs : (shapeLookup q).isSome = false := by rw [h]; rfl
    have hq : (q == "mMaj7") = false := by
      cases hb : q == "mMaj7"
      · rfl
      · exact absurd (by simpa using hb) hne
    have hm' : jsStartsWith q "m" = false := by
      cases hb : jsStartsWith q "m"
      · rfl
      · exact absurd hb hm
    simp [resolveShapeKey, hs, hq, hm', hd]
  · intro q h hne hm hd
    have hs : (shapeLookup q).isSome = false := by rw [h]; rfl
    have hq : (q == "mMaj7") = false := by
      cases hb : q == "mMaj7"
      · rfl
      · exact absurd (by simpa using hb) hne
    have hm' : jsStartsWith q "m" = false := by
      cases hb : jsStartsWith q "m"
      · rfl
      · exact absurd hb hm
    have hd' : jsStartsWith q "dim" = false := by
      cases hb : jsStartsWith q "dim"
      · rfl
      · exact absurd hb hd
    simp [resolveShapeKey, hs, hq, hm', hd']

/-- Witness for C6_voicing_total across the fallback chain's branches. -/
theorem C6_voicing_total_witness :
    resolveShapeKey "m7" = "m7" ∧ resolveShapeKey "mXColor" = "m" ∧
    resolveShapeKey "dimXColor" = "dim" ∧ resolveShapeKey "strange" = "" := by
  have h := C6_voicing_total
  exact ⟨h.2.2.2.1 "m7" (by decide),
    h.2.2.2.2.2.1 "mXColor" (by decide) (by decide) (by decide),
    h.2.2.2.2.2.2.1 "dimXColor" (by decide) (by decide) (by decide) (by decide),
    h.2.2.2.2.2.2.2 "strange" (by decide) (by decide) (by decide) (by decide)⟩

/-- Every chord the variation block pushes carries category
"Variation". -/
theorem mem_variationsAt_cat (sn : List String) (st sty : String) (i : Nat) :
    ∀ c ∈ variationsAt sn st sty i, c.category = "Variation" := by
  intro c h
  simp only [variationsAt] at h
  split_ifs at h <;>
    simp only [List.cons_append, List.nil_append, List.append_nil] at h <;>
    fin_cases h <;> rfl

/-- Every chord the wildcard block pushes carries category "Wildcard". -/
theorem mem_wildcardChords_cat (r : Int) (st : String) :
    ∀ c ∈ wildcardChords r st, c.category = "Wildcard" := by
  intro c h
  simp only [wildcardChords] at h
  split_ifs at h <;> fin_cases h <;> rfl

/-- A catalog chord of category "Team" is the team chord of one of the
scale degrees. -/
theorem team_mem (root st sty : String) (pattern : List Int) (c : Chord)
    (hc : c ∈ generateKeyChordsFor root st pattern sty) (hcat : c.category = "Team") :
    ∃ i, i < (scaleNotesOf root pattern).length ∧
      c = teamChordAt (scaleNotesOf root pattern) st sty i := by
  simp only [generateKeyChordsFor] at hc
  rcases List.mem_append.1 hc with h | h
  · rcases List.mem_flatMap.1 h with ⟨i, hi, hmem⟩
    rw [List.mem_range] at hi
    simp only [degreeChords] at hmem
    rcases List.mem_cons.1 hmem with heq | hvar
    · exact ⟨i, hi, heq⟩
    · have hv := mem_variationsAt_cat _ _ _ _ c hvar
      rw [hcat] at hv
      exact absurd hv (by decide)
  · have hv := mem_wildcardChords_cat _ _ c h
    rw [hcat] at hv
    exact absurd hv (by decide)

/-- C3 counterexample: the degree-1 Core chord of (C, Major, Jazz) has
the seventh quality maj7 but a 3-element toneSet (the seventh tone is
never stored). -/
theorem C3_core_toneset_counterexample :
    (teamChordAt (scaleNotesOf "C" [0, 2, 4, 5, 7, 9, 11]) "Major" "Jazz" 0) ∈
      generateKeyChordsFor "C" "Major" [0, 2, 4, 5, 7, 9, 11] "Jazz" ∧
    (teamChordAt (scaleNotesOf "C" [0, 2, 4, 5, 7, 9, 11]) "Major" "Jazz" 0).quality
      = "maj7" ∧
    (teamChordAt (scaleNotesOf "C" [0, 2, 4, 5, 7, 9, 11]) "Major" "Jazz" 0).notes
      = ["C", "E", "G"] := by decide

/-- C3 (amended): for every generated Core ("Team") chord — any root,
scale, style — the first element of `toneSet` is the chord's root, and
`toneSet` always has length 3 (root, third candidate, fifth candidate),
regardless of whether the quality is a triad or a seventh tag. -/
theorem C3_core_toneset (root st sty : String) (pattern : List Int) (c : Chord)
    (hc : c ∈ generateKeyChordsFor root st pattern sty) (hcat : c.category = "Team") :
    c.notes.length = 3 ∧ c.notes.head? = some c.root := by
  obtain ⟨i, hi, rfl⟩ := team_mem root st sty pattern c hc hcat
  exact ⟨rfl, rfl⟩

/-- Witness for C3_core_toneset at the degree-1 chord of (C, Major,
Pop). -/
theorem C3_core_toneset_witness :
    (teamChordAt (scaleNotesOf "C" [0, 2, 4, 5, 7, 9, 11]) "Major" "Pop" 0).notes.length
      = 3 ∧
    (teamChordAt (scaleNotesOf "C" [0, 2, 4, 5, 7, 9, 11]) "Major" "Pop" 0).notes.head?
      = some (teamChordAt (scaleNotesOf "C" [0, 2, 4, 5, 7, 9, 11]) "Major" "Pop" 0).root := by
  exact C3_core_toneset "C" "Major" "Pop" [0, 2, 4, 5, 7, 9, 11] _ (by decide) (by decide)

/-- The blues check holds for every team chord built on degrees 1, 4, 5
(0-indexed 0, 3, 4) of every root and registered pattern. -/
theorem blues_team_check_all :
    ∀ root ∈ ALL_NOTES, ∀ pr ∈ SCALE_PATTERNS, ∀ i ∈ ([0, 3, 4] : List Nat),
      bluesTeamCheck (teamChordAt (scaleNotesOf root pr.2) pr.1 "Blues" i) = true := by
  decide

/-- C4 counterexample: the degree-4 Team chord of (C, Major, Blues) is
F7 with toneSet exactly [F, A, C]: the claimed fourth tone Eb (D#) is
not stored; and the override is not dominant-7 on every registered
pattern: the degree-1 chord of (C, Locrian, Blues), the degree-5 chord
of (C, Phrygian, Blues) and the degree-4 chord of (C, Lydian, Blues)
all classify as "" because their scale fifth is diminished, while the
degree-5 chord of (C, Locrian, Blues) does get a perfect fifth and
classifies as "7". -/
theorem C4_blues_override_counterexample :
    (teamChordAt (scaleNotesOf "C" [0, 2, 4, 5, 7, 9, 11]) "Major" "Blues" 3) ∈
      generateKeyChordsFor "C" "Major" [0, 2, 4, 5, 7, 9, 11] "Blues" ∧
    (teamChordAt (scaleNotesOf "C" [0, 2, 4, 5, 7, 9, 11]) "Major" "Blues" 3).quality
      = "7" ∧
    (teamChordAt (scaleNotesOf "C" [0, 2, 4, 5, 7, 9, 11]) "Major" "Blues" 3).notes
      = ["F", "A", "C"] ∧
    "D#" ∉ (teamChordAt (scaleNotesOf "C" [0, 2, 4, 5, 7, 9, 11]) "Major" "Blues" 3).notes ∧
    (teamChordAt (scaleNotesOf "C" [0, 1, 3, 5, 6, 8, 10]) "Locrian" "Blues" 0).quality
      = "" ∧
    (teamChordAt (scaleNotesOf "C" [0, 1, 3, 5, 7, 8, 10]) "Phrygian" "Blues" 4).quality
      = "" ∧
    (teamChordAt (scaleNotesOf "C" [0, 2, 4, 6, 7, 9, 11]) "Lydian" "Blues" 3).quality
      = "" ∧
    (teamChordAt (scaleNotesOf "C" [0, 1, 3, 5, 6, 8, 10]) "Locrian" "Blues" 4).quality
      = "7" := by decide

/-- C4 (amended): under the Blues style, on scale degrees 1, 4 and 5 the
harmonizer forces a major third (4 semitones above the degree root) into
the toneSet and classifies with a forced minor seventh, but keeps the
scale's own fifth: the resulting Core chord has quality dominant-7
exactly when that fifth is perfect (7 semitones) — among the registered
patterns the only exceptions are Locrian degree 1, Phrygian degree 5
and Lydian degree 4, whose fifths are diminished — and its toneSet
holds 3 tones (root, forced major third, scale fifth) and never the
seventh. -/
theorem C4_blues_override :
    ∀ root ∈ ALL_NOTES, ∀ pr ∈ SCALE_PATTERNS,
    ∀ c ∈ generateKeyChordsFor root pr.1 pr.2 "Blues",
      c.category = "Team" → (c.scaleDegree = 1 ∨ c.scaleDegree = 4 ∨ c.scaleDegree = 5) →
      c.notes.getD 1 "" = noteTrans (jsIndexOf ALL_NOTES c.root) 4 ∧
      c.notes.length = 3 ∧
      (c.quality = "7" ↔
        (jsIndexOf ALL_NOTES (c.notes.getD 2 "") - jsIndexOf ALL_NOTES c.root + 12) % 12
          = 7) := by
  intro root hroot pr hpr c hc hcat hdeg
  obtain ⟨i, hi, rfl⟩ := team_mem root pr.1 "Blues" pr.2 c hc hcat
  have hsd : (teamChordAt (scaleNotesOf root pr.2) pr.1 "Blues" i).scaleDegree
      = (i : Int) + 1 := rfl
  have hideg : i ∈ ([0, 3, 4] : List Nat) := by
    rcases hdeg with h | h | h <;> rw [hsd] at h <;>
      simp only [List.mem_cons, List.not_mem_nil, or_false] <;> omega
  have hchk := blues_team_check_all root hroot pr hpr i hideg
  simp only [bluesTeamCheck, Bool.and_eq_true, beq_iff_eq] at hchk
  obtain ⟨⟨h1, h2⟩, h3⟩ := hchk
  refine ⟨h1, h2, ?_⟩
  constructor
  · intro hq
    have hb : ((teamChordAt (scaleNotesOf root pr.2) pr.1 "Blues" i).quality == "7") = true :=
      beq_iff_eq.2 hq
    rw [h3] at hb
    exact beq_iff_eq.1 hb
  · intro hf
    have hb : ((jsIndexOf ALL_NOTES
        ((teamChordAt (scaleNotesOf root pr.2) pr.1 "Blues" i).notes.getD 2 "") -
        jsIndexOf ALL_NOTES (teamChordAt (scaleNotesOf root pr.2) pr.1 "Blues" i).root + 12) % 12
        == 7) = true := beq_iff_eq.2 hf
    rw [← h3] at hb
    exact beq_iff_eq.1 hb

/-- Witness for C4_blues_override at the degree-4 chord of
(C, Major, Blues). -/
theorem C4_blues_override_witness :
    (teamChordAt (scaleNotesOf "C" [0, 2, 4, 5, 7, 9, 11]) "Major" "Blues" 3).notes.length
      = 3 ∧
    (teamChordAt (scaleNotesOf "C" [0, 2, 4, 5, 7, 9, 11]) "Major" "Blues" 3).notes.getD 1 ""
      = noteTrans (jsIndexOf ALL_NOTES
          (teamChordAt (scaleNotesOf "C" [0, 2, 4, 5, 7, 9, 11]) "Major" "Blues" 3).root) 4 := by
  have h := C4_blues_override "C" (by decide) ("Major", [0, 2, 4, 5, 7, 9, 11]) (by decide)
    (teamChordAt (scaleNotesOf "C" [0, 2, 4, 5, 7, 9, 11]) "Major" "Blues" 3)
    (by decide) (by decide) (Or.inr (Or.inl (by decide)))
  exact ⟨h.2.1, h.1⟩

/-- Every tone of every generated scale lies in the chromatic alphabet. -/
theorem scaleNotes_mem_allNotes :
    ∀ root ∈ ALL_NOTES, ∀ pr ∈ SCALE_PATTERNS, ∀ s ∈ scaleNotesOf root pr.2,
      s ∈ ALL_NOTES := by decide

/-- Index facts for members of the chromatic alphabet. -/
theorem allNotes_facts :
    ∀ n ∈ ALL_NOTES, 0 ≤ jsIndexOf ALL_NOTES n ∧ jsIndexOf ALL_NOTES n ≤ 11 ∧
      noteAt (jsIndexOf ALL_NOTES n).toNat = n := by decide

/-- For each pitch-class index, the major, minor and diminished barre
shapes and inversions all decode into the chord's three tones. -/
theorem triad_decode :
    ∀ r : Fin 12,
      ((mkVoicings "" (noteAt r.val) (noteTrans (r.val : Int) 4) (noteTrans (r.val : Int) 7)).all
        (fun v => fretsDecodeInto v.frets
          [noteAt r.val, noteTrans (r.val : Int) 4, noteTrans (r.val : Int) 7]) = true) ∧
      ((mkVoicings "m" (noteAt r.val) (noteTrans (r.val : Int) 3) (noteTrans (r.val : Int) 7)).all
        (fun v => fretsDecodeInto v.frets
          [noteAt r.val, noteTrans (r.val : Int) 3, noteTrans (r.val : Int) 7]) = true) ∧
      ((mkVoicings "dim" (noteAt r.val) (noteTrans (r.val : Int) 3) (noteTrans (r.val : Int) 6)).all
        (fun v => fretsDecodeInto v.frets
          [noteAt r.val, noteTrans (r.val : Int) 3, noteTrans (r.val : Int) 6]) = true) := by
  decide

/-- The decode property for a triad-consistent quality at any chromatic
root. -/
theorem triad_decode_apply (q : String) (i3 i5 : Int) (N : String)
    (hq : q = "" ∧ i3 = 4 ∧ i5 = 7 ∨ q = "m" ∧ i3 = 3 ∧ i5 = 7 ∨ q = "dim" ∧ i3 = 3 ∧ i5 = 6)
    (hN : N ∈ ALL_NOTES) :
    (mkVoicings q N (noteTrans (jsIndexOf ALL_NOTES N) i3)
        (noteTrans (jsIndexOf ALL_NOTES N) i5)).all
      (fun v => fretsDecodeInto v.frets
        [N, noteTrans (jsIndexOf ALL_NOTES N) i3, noteTrans (jsIndexOf ALL_NOTES N) i5])
      = true := by
  obtain ⟨hge, hle, hround⟩ := allNotes_facts N hN
  have hlt : (jsIndexOf ALL_NOTES N).toNat < 12 := by omega
  have hr : (((jsIndexOf ALL_NOTES N).toNat : Nat) : Int) = jsIndexOf ALL_NOTES N :=
    Int.toNat_of_nonneg hge
  rcases hq with ⟨rfl, rfl, rfl⟩ | ⟨rfl, rfl, rfl⟩ | ⟨rfl, rfl, rfl⟩
  · have hd : (mkVoicings "" (noteAt (jsIndexOf ALL_NOTES N).toNat)
        (noteTrans (((jsIndexOf ALL_NOTES N).toNat : Nat) : Int) 4)
        (noteTrans (((jsIndexOf ALL_NOTES N).toNat : Nat) : Int) 7)).all
        (fun v => fretsDecodeInto v.frets
          [noteAt (jsIndexOf ALL_NOTES N).toNat,
           noteTrans (((jsIndexOf ALL_NOTES N).toNat : Nat) : Int) 4,
           noteTrans (((jsIndexOf ALL_NOTES N).toNat : Nat) : Int) 7]) = true :=
      (triad_decode ⟨(jsIndexOf ALL_NOTES N).toNat, hlt⟩).1
    rw [hr, hround] at hd
    exact hd
  · have hd : (mkVoicings "m" (noteAt (jsIndexOf ALL_NOTES N).toNat)
        (noteTrans (((jsIndexOf ALL_NOTES N).toNat : Nat) : Int) 3)
        (noteTrans (((jsIndexOf ALL_NOTES N).toNat : Nat) : Int) 7)).all
        (fun v => fretsDecodeInto v.frets
          [noteAt (jsIndexOf ALL_NOTES N).toNat,
           noteTrans (((jsIndexOf ALL_NOTES N).toNat : Nat) : Int) 3,
           noteTrans (((jsIndexOf ALL_NOTES N).toNat : Nat) : Int) 7]) = true :=
      (triad_decode ⟨(jsIndexOf ALL_NOTES N).toNat, hlt⟩).2.1
    rw [hr, hround] at hd
    exact hd
  · have hd : (mkVoicings "dim" (noteAt (jsIndexOf ALL_NOTES N).toNat)
        (noteTrans (((jsIndexOf ALL_NOTES N).toNat : Nat) : Int) 3)
        (noteTrans (((jsIndexOf ALL_NOTES N).toNat : Nat) : Int) 6)).all
        (fun v => fretsDecodeInto v.frets
          [noteAt (jsIndexOf ALL_NOTES N).toNat,
           noteTrans (((jsIndexOf ALL_NOTES N).toNat : Nat) : Int) 3,
           noteTrans (((jsIndexOf ALL_NOTES N).toNat : Nat) : Int) 6]) = true :=
      (triad_decode ⟨(jsIndexOf ALL_NOTES N).toNat, hlt⟩).2.2
    rw [hr, hround] at hd
    exact hd

/-- C1 counterexample: the bVII wildcard of (C, Major, Pop) has voicing
tones outside its `notes` field [A#, ?, ?], and the Core maj7 chord of
(C, Major, Jazz) has a voicing sounding the seventh B, absent from its
3-element `notes` field — both chords are in the catalog, so the
unrestricted decode invariant is false. -/
theorem C1_voicing_decode_counterexample :
    (addWildcard 0 10 "" "bVII" "Mixolydian Borrow") ∈
      generateKeyChordsFor "C" "Major" [0, 2, 4, 5, 7, 9, 11] "Pop" ∧
    decodesIntoNotes (addWildcard 0 10 "" "bVII" "Mixolydian Borrow") = false ∧
    (teamChordAt (scaleNotesOf "C" [0, 2, 4, 5, 7, 9, 11]) "Major" "Jazz" 0) ∈
      generateKeyChordsFor "C" "Major" [0, 2, 4, 5, 7, 9, 11] "Jazz" ∧
    decodesIntoNotes (teamChordAt (scaleNotesOf "C" [0, 2, 4, 5, 7, 9, 11]) "Major" "Jazz" 0)
      = false := by decide

/-- C1 (amended): for every Core ("Team") chord of the catalog whose
quality is a triad tag consistent with its toneSet — quality "" with
tones (root, root+4, root+7), "m" with (root, root+3, root+7), or "dim"
with (root, root+3, root+6) — every non-muted fret of every voicing
decodes through standard tuning to a pitch class of that toneSet.  The
invariant fails for Wildcard chords (toneSet [root, ?, ?]), for
seventh-quality chords (the seventh is sounded but never stored in the
toneSet) and for Variation chords (the toneSet keeps the parent's
third). -/
theorem C1_voicing_decode :
    ∀ root ∈ ALL_NOTES, ∀ pr ∈ SCALE_PATTERNS,
    ∀ sty ∈ (["Pop", "Jazz", "Blues"] : List String),
    ∀ c ∈ generateKeyChordsFor root pr.1 pr.2 sty,
      c.category = "Team" → triadConsistent c = true → decodesIntoNotes c = true := by
  intro root hroot pr hpr sty _ c hc hcat htri
  obtain ⟨i, hi, rfl⟩ := team_mem root pr.1 sty pr.2 c hc hcat
  have hN : (degreeCtx (scaleNotesOf root pr.2) pr.1 sty i).note ∈ ALL_NOTES := by
    have h1 : (degreeCtx (scaleNotesOf root pr.2) pr.1 sty i).note
        = (scaleNotesOf root pr.2).getD i "" := rfl
    have h2 : (scaleNotesOf root pr.2).getD i "" = (scaleNotesOf root pr.2)[i] := by
      rw [List.getD_eq_getElem?_getD, List.getElem?_eq_getElem hi]
      rfl
    rw [h1, h2]
    exact scaleNotes_mem_allNotes root hroot pr hpr _ (List.getElem_mem hi)
  simp only [teamChordAt, triadConsistent, buildChord, decodesIntoNotes,
    Bool.or_eq_true, Bool.and_eq_true, beq_iff_eq] at htri ⊢
  rcases htri with (⟨hq, hnotes⟩ | ⟨hq, hnotes⟩) | ⟨hq, hnotes⟩ <;>
    (injection hnotes with h1 h2; injection h2 with hT h3; injection h3 with hF h4) <;>
    rw [hq, hT, hF] <;>
    [exact triad_decode_apply "" 4 7 _ (Or.inl ⟨rfl, rfl, rfl⟩) hN;
     exact triad_decode_apply "m" 3 7 _ (Or.inr (Or.inl ⟨rfl, rfl, rfl⟩)) hN;
     exact triad_decode_apply "dim" 3 6 _ (Or.inr (Or.inr ⟨rfl, rfl, rfl⟩)) hN]

/-- Witness for C1_voicing_decode at the degree-1 C major chord of
(C, Major, Pop). -/
theorem C1_voicing_decode_witness :
    decodesIntoNotes (teamChordAt (scaleNotesOf "C" [0, 2, 4, 5, 7, 9, 11]) "Major" "Pop" 0)
      = true := by
  exact C1_voicing_decode "C" (by decide) ("Major", [0, 2, 4, 5, 7, 9, 11]) (by decide)
    "Pop" (by decide)
    (teamChordAt (scaleNotesOf "C" [0, 2, 4, 5, 7, 9, 11]) "Major" "Pop" 0)
    (by decide) (by decide) (by decide)

/-- C7: the catalog's Wildcard chords are exactly the style-independent
borrowed set decided by the scale family ("Major"/"Mixolydian" versus
everything else): bVII-major, bIII-major, iv-minor, bVI-major in
major-family contexts and V-major, IV-major, bII-major in minor-family
contexts, all tagged isDiatonic = false, category = "Wildcard" and
harmonic function "Stranger" (Borrowed); for (C, Major) this includes a
Borrowed chord rooted at A# (Bb), 10 semitones above C. -/
theorem C7_wildcards :
    (∀ (root scaleType style : String) (pattern : List Int),
      (generateKeyChordsFor root scaleType pattern style).filter
          (fun c => c.category == "Wildcard")
        = wildcardChords (jsIndexOf ALL_NOTES root) scaleType) ∧
    (∀ (r : Int) (scaleType : String),
      (wildcardChords r scaleType).map
          (fun c => (c.root, c.quality, c.function, c.isDiatonic, c.category)) =
        if scaleType == "Major" || scaleType == "Mixolydian" then
          [(noteTrans r 10, "", "Stranger", false, "Wildcard"),
           (noteTrans r 3, "", "Stranger", false, "Wildcard"),
           (noteTrans r 5, "m", "Stranger", false, "Wildcard"),
           (noteTrans r 8, "", "Stranger", false, "Wildcard")]
        else
          [(noteTrans r 7, "", "Stranger", false, "Wildcard"),
           (noteTrans r 5, "", "Stranger", false, "Wildcard"),
           (noteTrans r 1, "", "Stranger", false, "Wildcard")]) ∧
    (∀ style : String,
      addWildcard 0 10 "" "bVII" "Mixolydian Borrow" ∈
        generateKeyChordsFor "C" "Major" [0, 2, 4, 5, 7, 9, 11] style) ∧
    (addWildcard 0 10 "" "bVII" "Mixolydian Borrow").root = "A#" ∧
    (addWildcard 0 10 "" "bVII" "Mixolydian Borrow").function = "Stranger" ∧
    (addWildcard 0 10 "" "bVII" "Mixolydian Borrow").isDiatonic = false ∧
    (addWildcard 0 10 "" "bVII" "Mixolydian Borrow").category = "Wildcard" := by
  refine ⟨?_, ?_, ?_, by decide, by decide, by decide, by decide⟩
  · intro root scaleType style pattern
    simp only [generateKeyChordsFor, List.filter_append]
    have h1 : ((List.range (scaleNotesOf root pattern).length).flatMap
        (fun i => degreeChords (scaleNotesOf root pattern) scaleType style i)).filter
          (fun c => c.category == "Wildcard") = [] := by
      rw [List.filter_eq_nil_iff]
      intro c hcmem
      rcases List.mem_flatMap.1 hcmem with ⟨i, _, hmem⟩
      simp only [degreeChords] at hmem
      rcases List.mem_cons.1 hmem with rfl | hvar
      · simp [teamChordAt, buildChord]
      · have hv := mem_variationsAt_cat _ _ _ _ c hvar
        simp [hv]
    have h2 : (wildcardChords (jsIndexOf ALL_NOTES root) scaleType).filter
        (fun c => c.category == "Wildcard")
        = wildcardChords (jsIndexOf ALL_NOTES root) scaleType := by
      rw [List.filter_eq_self]
      intro c hcmem
      have hv := mem_wildcardChords_cat _ _ c hcmem
      simp [hv]
    rw [h1, h2, List.nil_append]
  · intro r scaleType
    simp only [wildcardChords]
    split_ifs <;> rfl
  · intro style
    simp only [generateKeyChordsFor]
    apply List.mem_append_right
    have hw : wildcardChords (jsIndexOf ALL_NOTES "C") "Major" =
        [addWildcard 0 10 "" "bVII" "Mixolydian Borrow",
         addWildcard 0 3 "" "bIII" "Chromatic Mediant",
         addWildcard 0 5 "m" "iv" "Minor Plagal",
         addWildcard 0 8 "" "bVI" "Epic Lift"] := by decide
    rw [hw]
    exact List.mem_cons_self _ _
